import Mathlib

/-!
Shallow embedding of `src/process-i91/main.py` (a GCS-triggered Document AI
invoice extractor) and verification of its specification claims.

Python strings are modelled as Lean `String`s (lists of characters); parsed
JSON values (`json.loads` output) by the inductive `Json` below; Python
exceptions by the explicit result type `PyResult`.  JSON numbers are carried
as the text that the Python function str() produces for the parsed value (for the
literals appearing in the claims, e.g. `0.98`, this is the literal text).
-/

namespace I9Doc

/-- Python exception classes that the embedded code can raise. -/
inductive PyExn where
  | attributeError
  | keyError
  | typeError
  | timeoutError
deriving DecidableEq

/-- Result of running a piece of Python code: a value, or an uncaught
exception. -/
inductive PyResult (α : Type) where
  | ok (a : α)
  | exn (e : PyExn)
deriving DecidableEq

/-- Parsed JSON value (the possible outputs of the Python function json.loads).
A number is carried as the string `str()` renders it to. -/
inductive Json where
  | str (s : String)
  | num (repr : String)
  | bool (b : Bool)
  | null
  | arr (elems : List Json)
  | obj (fields : List (String × Json))

/-- Whether the value is a Python `dict`. -/
def Json.isObj : Json → Prop
  | .obj _ => True
  | _ => False

instance : DecidablePred Json.isObj := fun j =>
  match j with
  | .obj _ => isTrue trivial
  | .str _ => isFalse id
  | .num _ => isFalse id
  | .bool _ => isFalse id
  | .null => isFalse id
  | .arr _ => isFalse id

/-- First binding of a key in an association list (Python dicts are modelled
as association lists without duplicate keys). -/
def assocGet (l : List (String × Json)) (k : String) : Option Json :=
  match l with
  | [] => none
  | (k', v) :: rest => if k' = k then some v else assocGet rest k

/-- Dictionary lookup that never raises: `some v` when `j` is a dict binding
`k` to `v`, `none` otherwise. -/
def jLookup (j : Json) (k : String) : Option Json :=
  match j with
  | .obj l => assocGet l k
  | _ => none

/-- Iterated `jLookup` along a key path (used to state theorems about
`keys_exists`). -/
def jWalk (j : Json) : List String → Option Json
  | [] => some j
  | k :: ks =>
    match jLookup j k with
    | some v => jWalk v ks
    | none => none

/-- Python subscription `j[k]` with a string key: dict lookup (raising
`KeyError` when the key is absent); every other value raises `TypeError`
(strings and lists demand integer indices, the rest are not subscriptable). -/
def pyGetItem (j : Json) (k : String) : PyResult Json :=
  match j with
  | .obj l =>
    match assocGet l k with
    | some v => .ok v
    | none => .exn .keyError
  | _ => .exn .typeError

/-- Python iteration `for x in j`: a list yields its elements, a string its
one-character substrings, a dict its keys; other values raise `TypeError`. -/
def pyIter (j : Json) : PyResult (List Json) :=
  match j with
  | .arr l => .ok l
  | .str s => .ok (s.data.map fun c => .str (String.mk [c]))
  | .obj l => .ok (l.map fun kv => .str kv.1)
  | _ => .exn .typeError

mutual

/-- Python `repr` of a JSON value (string escaping inside `repr` of strings
is not modelled; no claim exercises it). -/
def pyRepr : Json → String
  | .str s => "\x27" ++ s ++ "\x27"
  | .num r => r
  | .bool b => if b then "True" else "False"
  | .null => "None"
  | .arr l => "[" ++ pyReprSeq l ++ "]"
  | .obj l => "\x7b" ++ pyReprObjSeq l ++ "\x7d"

/-- Comma-separated `repr`s of list elements. -/
def pyReprSeq : List Json → String
  | [] => ""
  | [x] => pyRepr x
  | x :: y :: rest => pyRepr x ++ ", " ++ pyReprSeq (y :: rest)

/-- Comma-separated `repr`s of dict items. -/
def pyReprObjSeq : List (String × Json) → String
  | [] => ""
  | [(k, v)] => "\x27" ++ k ++ "\x27: " ++ pyRepr v
  | (k, v) :: y :: rest => "\x27" ++ k ++ "\x27: " ++ pyRepr v ++ ", " ++ pyReprObjSeq (y :: rest)

end

/-- Python `str()` of a JSON value. -/
def pyStr (j : Json) : String :=
  match j with
  | .str s => s
  | _ => pyRepr j

/-- Characters removed by the Python method str.strip() (the ASCII whitespace
characters; non-ASCII Unicode spaces do not occur in this pipeline). -/
def pyIsSpace (c : Char) : Bool :=
  c = ' ' || c = '\t' || c = '\n' || c = '\r' || c = '\x0b' || c = '\x0c'

/-- Python `str.strip()`: drop leading and trailing whitespace. -/
def pyStrip (l : List Char) : List Char :=
  ((l.dropWhile pyIsSpace).reverse.dropWhile pyIsSpace).reverse

/-- Replacement performed by `.replace("\n", " ")`: each newline character
becomes a single space. -/
def replNL (c : Char) : Char :=
  if c = '\n' then ' ' else c

/-- Source `trim_text`: `text.strip().replace("\n", " ")`. -/
def trim_text (text : String) : String :=
  String.mk ((pyStrip text.data).map replNL)

/-- Source `keys_exists` walk: `for key in keys: try: _element = _element[key]
except KeyError: return False` then `return True`.  A dict missing the key
raises `KeyError`, which is caught (`False`); subscripting a non-dict raises
`TypeError`, which is not caught. -/
def keys_walk (j : Json) : List String → PyResult Bool
  | [] => .ok true
  | k :: ks =>
    match j with
    | .obj l =>
      match assocGet l k with
      | some v => keys_walk v ks
      | none => .ok false
    | _ => .exn .typeError

/-- Source `keys_exists(element, *keys)`: raises `AttributeError` when
`element` is not a dict or no keys are given, otherwise runs the walk. -/
def keys_exists (element : Json) (keys : List String) : PyResult Bool :=
  if ¬ element.isObj then .exn .attributeError
  else if keys.isEmpty then .exn .attributeError
  else keys_walk element keys

/-- Flattened form-field record (source dict literal at main.py:210). -/
structure FieldRecord where
  fieldName : String
  fieldNameConfidence : String
  fieldValue : String
  fieldValueConfidence : String
deriving DecidableEq

/-- Calling `trim_text` on an arbitrary value: `.strip()` exists only on
strings; any other value raises `AttributeError`. -/
def pyTrim (j : Json) : PyResult String :=
  match j with
  | .str s => .ok (trim_text s)
  | _ => .exn .attributeError

/-- Chained Python subscription `j[k1][k2]...` (as in
`field["fieldName"]["textAnchor"]["content"]`). -/
def jsonAtPath (j : Json) : List String → PyResult Json
  | [] => .ok j
  | k :: ks =>
    match pyGetItem j k with
    | .ok v => jsonAtPath v ks
    | .exn e => .exn e

/-- Body of the innermost loop of `get_document_json_from_gcs`
(main.py:205-212): the four short-circuit `keys_exists` checks, then record
construction.  Returns `ok none` when a check is false (entry dropped),
`ok (some r)` when a record is appended, `exn` when a check or `trim_text`
raises. -/
def processField (field : Json) : PyResult (Option FieldRecord) :=
  match keys_exists field ["fieldName", "textAnchor", "content"] with
  | .exn e => .exn e
  | .ok false => .ok none
  | .ok true =>
  match keys_exists field ["fieldName", "confidence"] with
  | .exn e => .exn e
  | .ok false => .ok none
  | .ok true =>
  match keys_exists field ["fieldValue", "textAnchor", "content"] with
  | .exn e => .exn e
  | .ok false => .ok none
  | .ok true =>
  match keys_exists field ["fieldValue", "confidence"] with
  | .exn e => .exn e
  | .ok false => .ok none
  | .ok true =>
  match jsonAtPath field ["fieldName", "textAnchor", "content"] with
  | .exn e => .exn e
  | .ok nameContent =>
  match pyTrim nameContent with
  | .exn e => .exn e
  | .ok fieldName =>
  match jsonAtPath field ["fieldName", "confidence"] with
  | .exn e => .exn e
  | .ok nameConf =>
  match jsonAtPath field ["fieldValue", "textAnchor", "content"] with
  | .exn e => .exn e
  | .ok valueContent =>
  match pyTrim valueContent with
  | .exn e => .exn e
  | .ok fieldValue =>
  match jsonAtPath field ["fieldValue", "confidence"] with
  | .exn e => .exn e
  | .ok valueConf =>
    .ok (some
      { fieldName := fieldName
        fieldNameConfidence := trim_text (pyStr nameConf)
        fieldValue := fieldValue
        fieldValueConfidence := trim_text (pyStr valueConf) })

/-- The `for field in page["formFields"]` loop: records accumulate in order;
an exception aborts the whole run. -/
def processFields : List Json → PyResult (List FieldRecord)
  | [] => .ok []
  | f :: rest =>
    match processField f with
    | .exn e => .exn e
    | .ok none => processFields rest
    | .ok (some r) =>
      match processFields rest with
      | .exn e => .exn e
      | .ok rs => .ok (r :: rs)

/-- One iteration of `for page in json_data["pages"]` (main.py:202-212):
`if keys_exists(page, "formFields")` guards the inner loop. -/
def processPage (page : Json) : PyResult (List FieldRecord) :=
  match keys_exists page ["formFields"] with
  | .exn e => .exn e
  | .ok false => .ok []
  | .ok true =>
    match pyGetItem page "formFields" with
    | .exn e => .exn e
    | .ok ff =>
      match pyIter ff with
      | .exn e => .exn e
      | .ok fields => processFields fields

/-- The pages loop, accumulating the records of each page in order. -/
def processPages : List Json → PyResult (List FieldRecord)
  | [] => .ok []
  | p :: rest =>
    match processPage p with
    | .exn e => .exn e
    | .ok rs =>
      match processPages rest with
      | .exn e => .exn e
      | .ok rs' => .ok (rs ++ rs')

/-- Processing of one downloaded-and-parsed JSON object:
`json_data["pages"]` (an uncaught `KeyError`/`TypeError` when absent or the
value is not a dict), then the pages loop. -/
def processBlob (json_data : Json) : PyResult (List FieldRecord) :=
  match pyGetItem json_data "pages" with
  | .exn e => .exn e
  | .ok pages =>
    match pyIter pages with
    | .exn e => .exn e
    | .ok pageList => processPages pageList

/-- A GCS object as seen by `get_document_json_from_gcs`: its name, and the
parsed JSON value that `json.loads` of its bytes yields. -/
structure Blob where
  name : String
  content : Json

/-- Python substring containment `needle in hay`. -/
def containsSub (needle hay : String) : Bool :=
  hay.data.tails.any (fun t => needle.data.isPrefixOf t)

/-- Source `get_document_json_from_gcs` (main.py:182-216), over the object
listing returned by the storage service: objects whose names contain
`".json"` are parsed and flattened, the rest are skipped with a log line. -/
def get_document_json_from_gcs : List Blob → PyResult (List FieldRecord)
  | [] => .ok []
  | b :: rest =>
    if containsSub ".json" b.name then
      match processBlob b.content with
      | .exn e => .exn e
      | .ok rs =>
        match get_document_json_from_gcs rest with
        | .exn e => .exn e
        | .ok rs' => .ok (rs ++ rs')
    else get_document_json_from_gcs rest

/-! ### Entity flattening (alternate path, `extract_document_entities`) -/

/-- A Document AI entity: type, mention text, optional normalized value
(`some t` models a truthy `normalized_value` message whose `.text` is `t`;
`none` models an unset/falsy one), and sub-entity properties. -/
inductive Entity where
  | mk (type_ : String) (mention_text : String)
      (normalized_value : Option String) (properties : List Entity)

/-- Entity type accessor. -/
def Entity.type_ : Entity → String
  | .mk t _ _ _ => t

/-- Mention-text accessor. -/
def Entity.mention_text : Entity → String
  | .mk _ m _ _ => m

/-- Normalized-value accessor. -/
def Entity.normalized_value : Entity → Option String
  | .mk _ _ n _ => n

/-- Properties accessor. -/
def Entity.properties : Entity → List Entity
  | .mk _ _ _ p => p

/-- A value stored in the entity dictionary: a scalar string or a list of
strings. -/
inductive EntityValue where
  | scalar (s : String)
  | list (l : List String)
deriving DecidableEq

/-- Python truthiness of a stored entity value: the empty string and the
empty list are falsy. -/
def EntityValue.truthy : EntityValue → Bool
  | .scalar s => ¬ s = ""
  | .list l => ¬ l.isEmpty

/-- The entity dictionary, insertion ordered like a Python dict. -/
abbrev EntityDict : Type := List (String × EntityValue)

/-- Lookup (`dict.get`). -/
def dictGet (d : EntityDict) (k : String) : Option EntityValue :=
  match d with
  | [] => none
  | (k', v) :: rest => if k' = k then some v else dictGet rest k

/-- Assignment: replaces the first binding of `k` in place, or appends a new
binding at the end (Python dict update semantics). -/
def dictSet (d : EntityDict) (k : String) (v : EntityValue) : EntityDict :=
  match d with
  | [] => [(k, v)]
  | (k', v') :: rest =>
    if k' = k then (k', v) :: rest else (k', v') :: dictSet rest k v

/-- Dictionary key used for an entity: its type with slashes replaced by
underscores (main.py:64). -/
def entityKey (entity : Entity) : String :=
  String.mk (entity.type_.data.map fun c => if c = '/' then '_' else c)

/-- Value stored for an entity: the normalized text when the normalized
value is truthy, else the mention text (main.py:67). -/
def entityNewValue (entity : Entity) : String :=
  match entity.normalized_value with
  | some t => t
  | none => entity.mention_text

/-- Source inner `extract_document_entity` (main.py:60-82): a truthy existing
value under the key is promoted to a list and appended to; a falsy or absent
one is overwritten with the new scalar. -/
def extract_document_entity (d : EntityDict) (entity : Entity) : EntityDict :=
  let entity_key := entityKey entity
  let new_entity_value := entityNewValue entity
  match dictGet d entity_key with
  | some existing =>
    if existing.truthy then
      match existing with
      | .list l => dictSet d entity_key (.list (l ++ [new_entity_value]))
      | .scalar s => dictSet d entity_key (.list [s, new_entity_value])
    else dictSet d entity_key (.scalar new_entity_value)
  | none => dictSet d entity_key (.scalar new_entity_value)

/-- Source `extract_document_entities` (main.py:52-94): each entity, then its
immediate properties, in order. -/
def extract_document_entities (entities : List Entity) : EntityDict :=
  entities.foldl
    (fun d e => e.properties.foldl extract_document_entity (extract_document_entity d e))
    []

/-! ### The trigger handler `process_invoice` -/

/-- Storage-change notification payload; `event.get(k)` yields `none` for a
missing field. -/
structure TriggerEvent where
  bucket : Option String
  name : Option String
  contentType : Option String

/-- Responses of the environment to the external calls made by one
invocation: the module-level output-directory configuration value, the
resource name of the operation returned by the batch submit, whether the
wait completes within the timeout, and the object listing the storage
service returns for the derived output directory. -/
structure Env where
  outputUriPfx : String
  operationName : String
  waitOk : Bool
  blobs : List Blob

/-- External service calls, recorded in order. -/
inductive ExtCall where
  | batchProcess (inputUri outputUri : String)
  | waitOp
  | listBlobs (bucket dir : String)
  | upload (bucket objectName : String) (records : List FieldRecord)
deriving DecidableEq

/-- Outcome of one invocation: the external calls made, the output object
written by `create_json` (path and content), and the uncaught exception, if
any. -/
structure ProcResult where
  calls : List ExtCall
  output : Option (String × List FieldRecord)
  exn : Option PyExn
deriving DecidableEq

/-- Source `ACCEPTED_MIME_TYPES` (main.py:26-27). -/
def ACCEPTED_MIME_TYPES : List String :=
  ["application/pdf", "image/jpeg", "image/png", "image/tiff", "image/gif"]

/-- Python falsiness of an optional string (`not x`): missing or empty. -/
def pyFalsyOpt (o : Option String) : Bool :=
  match o with
  | none => true
  | some s => s = ""

/-- Case-insensitive match of the literal pattern characters `pat` (given in
lowercase) at the start of `s`; on success returns the remainder of `s`. -/
def ciStripLower (pat : List Char) (s : List Char) : Option (List Char) :=
  match pat, s with
  | [], rest => some rest
  | _ :: _, [] => none
  | p :: ps, c :: cs => if c.toLower = p then ciStripLower ps cs else none

/-- Source `re.search(r"operations\/(\d+)", name, re.IGNORECASE)` followed by
`.group(1)` (main.py:252-253): the leftmost occurrence of `operations/`
(case-insensitively) followed by at least one digit; the captured group is
the maximal digit run there.  `none` models `re.search` returning `None`. -/
def opSearch : List Char → Option (List Char)
  | [] => none
  | c :: rest =>
    match ciStripLower "operations/".data (c :: rest) with
    | some after =>
      let d := after.takeWhile Char.isDigit
      if d.isEmpty then opSearch rest else some d
    | none => opSearch rest

/-- Source `process_invoice` (main.py:218-301): gate on bucket/name and
content type, submit the batch job, wait, extract the operation id, fetch
and flatten the result JSON, and upload the flattened records.  The missing
content-type case raises `TypeError` because the log line concatenates the
string literal with `None` before the early return can matter. -/
def process_invoice (event : TriggerEvent) (env : Env) : ProcResult :=
  let input_bucket := event.bucket
  let input_filename := event.name
  let mime_type := event.contentType
  if pyFalsyOpt input_bucket || pyFalsyOpt input_filename then
    { calls := [], output := none, exn := none }
  else
    match mime_type with
    | none => { calls := [], output := none, exn := some .typeError }
    | some mt =>
      if ¬ mt ∈ ACCEPTED_MIME_TYPES then
        { calls := [], output := none, exn := none }
      else
        let b := input_bucket.getD ""
        let f := input_filename.getD ""
        let gcs_input_uri := "gs://" ++ b ++ "/" ++ f
        let destination_uri := "gs://" ++ b ++ "/" ++ env.outputUriPfx ++ "/"
        let calls₁ := [ExtCall.batchProcess gcs_input_uri destination_uri, ExtCall.waitOp]
        if ¬ env.waitOk then
          { calls := calls₁, output := none, exn := some .timeoutError }
        else
          match opSearch env.operationName.data with
          | none => { calls := calls₁, output := none, exn := some .attributeError }
          | some digits =>
            let operation_id := String.mk digits
            let output_directory := env.outputUriPfx ++ "/" ++ operation_id
            let calls₂ := calls₁ ++ [ExtCall.listBlobs b output_directory]
            match get_document_json_from_gcs env.blobs with
            | .exn e => { calls := calls₂, output := none, exn := some e }
            | .ok entities =>
              let extract_filename := "extractedjson/" ++ f ++ ".json"
              { calls := calls₂ ++ [ExtCall.upload b extract_filename entities]
                output := some (extract_filename, entities)
                exn := none }

/-! ### Concrete documents used by individual claims -/

/-- The one-field page document of the end-to-end scenario: pages =
[(formFields = [(fieldName = (textAnchor.content = "Total", confidence =
0.98), fieldValue = (textAnchor.content = "$42.00", confidence = 0.95))])]. -/
def sampleDoc : Json :=
  .obj [("pages", .arr [
    .obj [("formFields", .arr [
      .obj [
        ("fieldName", .obj [
          ("textAnchor", .obj [("content", .str "Total")]),
          ("confidence", .num "0.98")]),
        ("fieldValue", .obj [
          ("textAnchor", .obj [("content", .str "$42.00")]),
          ("confidence", .num "0.95")])
      ]
    ])]
  ])]

/-- A page document with one form-field entry whose `fieldName` is a string,
so all four required key paths are missing from it but the existence probe
hits a non-dict intermediate value. -/
def badFieldDoc : Json :=
  .obj [("pages", .arr [
    .obj [("formFields", .arr [
      .obj [("fieldName", .str "oops")]])]])]

/-- Modelled from the spec: text normalization as the spec words it, namely
each embedded newline character replaced by a single space, with leading and
trailing whitespace trimmed (stated with the replacement applied first; the
source applies `strip` first, and the two compositions are proved equal). -/
def specNormalize (s : String) : String :=
  String.mk (pyStrip (s.data.map replNL))

/-! ## Helper lemmas -/

theorem pyIsSpace_comp_replNL : pyIsSpace ∘ replNL = pyIsSpace := by
  funext c
  by_cases h : c = '\n'
  · subst h; decide
  · simp [Function.comp, replNL, h]

theorem trim_text_eq_specNormalize (s : String) : trim_text s = specNormalize s := by
  unfold trim_text specNormalize pyStrip
  simp only [List.dropWhile_map, pyIsSpace_comp_replNL, ← List.map_reverse]

theorem replNL_ne_newline (c : Char) : replNL c ≠ '\n' := by
  by_cases h : c = '\n' <;> simp [replNL, h]

theorem newline_not_mem_trim_text (s : String) : '\n' ∉ (trim_text s).data := by
  unfold trim_text
  intro hmem
  rcases List.mem_map.mp hmem with ⟨c, _, hc⟩
  exact replNL_ne_newline c hc

theorem dictGet_dictSet_self : ∀ (d : EntityDict) (k : String) (v : EntityValue),
    dictGet (dictSet d k v) k = some v
  | [], k, v => by simp [dictSet, dictGet]
  | (k', v') :: rest, k, v => by
    by_cases h : k' = k
    · simp [dictSet, dictGet, h]
    · simp [dictSet, dictGet, h, dictGet_dictSet_self rest k v]

theorem keys_walk_of_jWalk : ∀ (ks : List String) (j v : Json),
    jWalk j ks = some v → keys_walk j ks = .ok true
  | [], _, _, _ => rfl
  | k :: ks, j, v, h => by
    cases j with
    | obj l =>
      simp only [jWalk, jLookup] at h
      cases hg : assocGet l k with
      | none => rw [hg] at h; exact absurd h (by simp)
      | some w =>
        rw [hg] at h
        simp only [keys_walk, hg]
        exact keys_walk_of_jWalk ks w v h
    | str s => simp [jWalk, jLookup] at h
    | num r => simp [jWalk, jLookup] at h
    | bool b => simp [jWalk, jLookup] at h
    | null => simp [jWalk, jLookup] at h
    | arr l => simp [jWalk, jLookup] at h

theorem jsonAtPath_of_jWalk : ∀ (ks : List String) (j v : Json),
    jWalk j ks = some v → jsonAtPath j ks = .ok v
  | [], j, v, h => by simpa [jWalk, jsonAtPath] using h
  | k :: ks, j, v, h => by
    cases j with
    | obj l =>
      simp only [jWalk, jLookup] at h
      cases hg : assocGet l k with
      | none => rw [hg] at h; exact absurd h (by simp)
      | some w =>
        rw [hg] at h
        simp only [jsonAtPath, pyGetItem, hg]
        exact jsonAtPath_of_jWalk ks w v h
    | str s => simp [jWalk, jLookup] at h
    | num r => simp [jWalk, jLookup] at h
    | bool b => simp [jWalk, jLookup] at h
    | null => simp [jWalk, jLookup] at h
    | arr l => simp [jWalk, jLookup] at h

theorem pyGetItem_exn_of_jLookup_none (j : Json) (k : String)
    (h : jLookup j k = none) : ∃ e, pyGetItem j k = .exn e := by
  cases j with
  | obj l =>
    simp only [jLookup] at h
    exact ⟨.keyError, by simp [pyGetItem, h]⟩
  | str s => exact ⟨.typeError, rfl⟩
  | num r => exact ⟨.typeError, rfl⟩
  | bool b => exact ⟨.typeError, rfl⟩
  | null => exact ⟨.typeError, rfl⟩
  | arr l => exact ⟨.typeError, rfl⟩

theorem head_dropWhile_false {α : Type} (p : α → Bool) :
    ∀ (l : List α) (c : α), (l.dropWhile p).head? = some c → p c = false
  | [], c, h => by simp [List.dropWhile] at h
  | a :: rest, c, h => by
    rw [List.dropWhile_cons] at h
    by_cases hp : p a = true
    · rw [if_pos hp] at h
      exact head_dropWhile_false p rest c h
    · rw [if_neg hp] at h
      simp only [List.head?_cons, Option.some.injEq] at h
      subst h
      exact Bool.not_eq_true _ |>.mp hp

theorem ciStripLower_decomp : ∀ (pat s rest : List Char),
    ciStripLower pat s = some rest →
    ∃ mid, s = mid ++ rest ∧ mid.map Char.toLower = pat
  | [], s, rest, h => by
    simp only [ciStripLower, Option.some.injEq] at h
    exact ⟨[], by simp [h], rfl⟩
  | p :: ps, [], rest, h => by simp [ciStripLower] at h
  | p :: ps, c :: cs, rest, h => by
    simp only [ciStripLower] at h
    by_cases hc : c.toLower = p
    · rw [if_pos hc] at h
      rcases ciStripLower_decomp ps cs rest h with ⟨mid, hmid, hmap⟩
      exact ⟨c :: mid, by simp [hmid], by simp [hmap, hc]⟩
    · rw [if_neg hc] at h
      exact absurd h (by simp)

theorem opSearch_some_spec : ∀ (s d : List Char), opSearch s = some d →
    d ≠ [] ∧ (∀ c ∈ d, c.isDigit = true) ∧
    ∃ pre mid rest, s = pre ++ mid ++ d ++ rest ∧
      mid.map Char.toLower = "operations/".data ∧
      (∀ c, rest.head? = some c → c.isDigit = false)
  | [], d, h => by simp [opSearch] at h
  | c :: cs, d, h => by
    rw [opSearch] at h
    cases hci : ciStripLower "operations/".data (c :: cs) with
    | some after =>
      simp only [hci] at h
      by_cases he : (after.takeWhile Char.isDigit).isEmpty = true
      · rw [if_pos he] at h
        rcases opSearch_some_spec cs d h with ⟨hne, hdig, pre, mid, rest, hs, hmid, hrest⟩
        exact ⟨hne, hdig, c :: pre, mid, rest, by simp [hs], hmid, hrest⟩
      · rw [if_neg he] at h
        simp only [Option.some.injEq] at h
        subst h
        refine ⟨by simpa [List.isEmpty_iff] using he,
                fun x hx => List.mem_takeWhile_imp hx, ?_⟩
        rcases ciStripLower_decomp _ _ _ hci with ⟨mid, hmid, hmap⟩
        refine ⟨[], mid, after.dropWhile Char.isDigit, ?_, hmap, ?_⟩
        · rw [List.nil_append, hmid, List.append_assoc, List.takeWhile_append_dropWhile]
        · exact fun x hx => head_dropWhile_false Char.isDigit after x hx
    | none =>
      simp only [hci] at h
      rcases opSearch_some_spec cs d h with ⟨hne, hdig, pre, mid, rest, hs, hmid, hrest⟩
      exact ⟨hne, hdig, c :: pre, mid, rest, by simp [hs], hmid, hrest⟩

theorem keys_exists_obj (l : List (String × Json)) (k : String) (ks : List String) :
    keys_exists (.obj l) (k :: ks) = keys_walk (.obj l) (k :: ks) := by
  simp [keys_exists, Json.isObj]

theorem processField_good (field : Json) (n v : String) (c₁ c₂ : Json)
    (h1 : jWalk field ["fieldName", "textAnchor", "content"] = some (.str n))
    (h2 : jWalk field ["fieldName", "confidence"] = some c₁)
    (h3 : jWalk field ["fieldValue", "textAnchor", "content"] = some (.str v))
    (h4 : jWalk field ["fieldValue", "confidence"] = some c₂) :
    processField field = .ok (some
      { fieldName := trim_text n, fieldNameConfidence := trim_text (pyStr c₁),
        fieldValue := trim_text v, fieldValueConfidence := trim_text (pyStr c₂) }) := by
  have k1 := keys_walk_of_jWalk _ _ _ h1
  have k2 := keys_walk_of_jWalk _ _ _ h2
  have k3 := keys_walk_of_jWalk _ _ _ h3
  have k4 := keys_walk_of_jWalk _ _ _ h4
  have g1 := jsonAtPath_of_jWalk _ _ _ h1
  have g2 := jsonAtPath_of_jWalk _ _ _ h2
  have g3 := jsonAtPath_of_jWalk _ _ _ h3
  have g4 := jsonAtPath_of_jWalk _ _ _ h4
  cases field with
  | obj l =>
    simp only [processField, keys_exists_obj, k1, k2, k3, k4, g1, g2, g3, g4, pyTrim]
  | str s => simp [jWalk, jLookup] at h1
  | num r => simp [jWalk, jLookup] at h1
  | bool b => simp [jWalk, jLookup] at h1
  | null => simp [jWalk, jLookup] at h1
  | arr l => simp [jWalk, jLookup] at h1

theorem keys_walk_false : ∀ (ks : List String) (j : Json),
    keys_walk j ks = .ok false →
    ∃ pre k post v, ks = pre ++ k :: post ∧ jWalk j pre = some v ∧
      ∃ l, v = .obj l ∧ assocGet l k = none
  | [], j, h => by simp [keys_walk] at h
  | k :: ks, j, h => by
    cases j with
    | obj l =>
      simp only [keys_walk] at h
      cases hg : assocGet l k with
      | none => exact ⟨[], k, ks, .obj l, rfl, rfl, l, rfl, hg⟩
      | some w =>
        simp only [hg] at h
        rcases keys_walk_false ks w h with ⟨pre, k', post, u, hks, hw, hobj⟩
        exact ⟨k :: pre, k', post, u, by simp [hks],
               by simp [jWalk, jLookup, hg, hw], hobj⟩
    | str s => simp [keys_walk] at h
    | num r => simp [keys_walk] at h
    | bool b => simp [keys_walk] at h
    | null => simp [keys_walk] at h
    | arr l => simp [keys_walk] at h

theorem gdoc_exn_of_bad_blob : ∀ (blobs : List Blob),
    (∃ blob ∈ blobs, containsSub ".json" blob.name = true ∧
      jLookup blob.content "pages" = none) →
    ∃ e, get_document_json_from_gcs blobs = .exn e
  | [], h => by simp at h
  | b :: rest, h => by
    rcases h with ⟨blob, hmem, hjson, hbad⟩
    rcases List.mem_cons.mp hmem with rfl | hmem'
    · rcases pyGetItem_exn_of_jLookup_none _ _ hbad with ⟨e, he⟩
      exact ⟨e, by simp [get_document_json_from_gcs, hjson, processBlob, he]⟩
    · by_cases hj : containsSub ".json" b.name = true
      · cases hpb : processBlob b.content with
        | exn e => exact ⟨e, by simp [get_document_json_from_gcs, hj, hpb]⟩
        | ok rs =>
          rcases gdoc_exn_of_bad_blob rest ⟨blob, hmem', hjson, hbad⟩ with ⟨e, he⟩
          exact ⟨e, by simp [get_document_json_from_gcs, hj, hpb, he]⟩
      · rcases gdoc_exn_of_bad_blob rest ⟨blob, hmem', hjson, hbad⟩ with ⟨e, he⟩
        exact ⟨e, by simp [get_document_json_from_gcs, hj, he]⟩

/-! ## Claim theorems -/

/-- C1: for a single listed object whose name contains ".json" and whose
parsed content is the one-field page document of the scenario, the
Fetcher/Flattener returns exactly the one-element record list with field
name "Total", value "$42.00", and the confidences rendered as the strings
"0.98" and "0.95". -/
theorem C1_single_json_end_to_end (name : String)
    (h : containsSub ".json" name = true) :
    get_document_json_from_gcs [⟨name, sampleDoc⟩] =
      .ok [{ fieldName := "Total", fieldNameConfidence := "0.98",
             fieldValue := "$42.00", fieldValueConfidence := "0.95" }] := by
  unfold get_document_json_from_gcs
  simp only [h]
  decide

/-- Witness for C1 at the concrete object name "output-0.json". -/
theorem C1_single_json_end_to_end_witness :
    containsSub ".json" "output-0.json" = true ∧
    get_document_json_from_gcs [⟨"output-0.json", sampleDoc⟩] =
      .ok [{ fieldName := "Total", fieldNameConfidence := "0.98",
             fieldValue := "$42.00", fieldValueConfidence := "0.95" }] :=
  ⟨by decide, C1_single_json_end_to_end "output-0.json" (by decide)⟩

/-- C2 counterexample: a form-field entry whose `fieldName` is a string is
missing all four required nested key paths, yet processing it raises an
uncaught `TypeError` (the `keys_exists` probe subscripts a non-dict), so the
entry is not silently dropped and no record list is produced. -/
theorem C2_counterexample_nondict_intermediate :
    get_document_json_from_gcs [⟨"out.json", badFieldDoc⟩] = .exn .typeError ∧
    ¬ ∃ rs, get_document_json_from_gcs [⟨"out.json", badFieldDoc⟩] = .ok rs := by
  refine ⟨by decide, ?_⟩
  rintro ⟨rs, hrs⟩
  rw [show get_document_json_from_gcs [⟨"out.json", badFieldDoc⟩] =
        .exn .typeError from by decide] at hrs
  exact PyResult.noConfusion hrs

/-- C2 amended: a form-field entry on which the short-circuit sequence of
the four `keys_exists` probes evaluates without exception to `False` (every
traversed intermediate value is a dict, and a key on some probed path is
absent from its dict) yields no record, raises no error, and processing
continues with the next entry; an entry on which all four key paths exist
(through dicts) with string contents yields exactly one record. -/
theorem C2_amended_incomplete_entries (field : Json) (rest : List Json) :
    ((keys_exists field ["fieldName", "textAnchor", "content"] = .ok false ∨
      (keys_exists field ["fieldName", "textAnchor", "content"] = .ok true ∧
       keys_exists field ["fieldName", "confidence"] = .ok false) ∨
      (keys_exists field ["fieldName", "textAnchor", "content"] = .ok true ∧
       keys_exists field ["fieldName", "confidence"] = .ok true ∧
       keys_exists field ["fieldValue", "textAnchor", "content"] = .ok false) ∨
      (keys_exists field ["fieldName", "textAnchor", "content"] = .ok true ∧
       keys_exists field ["fieldName", "confidence"] = .ok true ∧
       keys_exists field ["fieldValue", "textAnchor", "content"] = .ok true ∧
       keys_exists field ["fieldValue", "confidence"] = .ok false)) →
      processFields (field :: rest) = processFields rest) ∧
    (∀ (rs : List FieldRecord) (n v : String) (c₁ c₂ : Json),
      jWalk field ["fieldName", "textAnchor", "content"] = some (.str n) →
      jWalk field ["fieldName", "confidence"] = some c₁ →
      jWalk field ["fieldValue", "textAnchor", "content"] = some (.str v) →
      jWalk field ["fieldValue", "confidence"] = some c₂ →
      processFields rest = .ok rs →
      processFields (field :: rest) = .ok
        ({ fieldName := trim_text n, fieldNameConfidence := trim_text (pyStr c₁),
           fieldValue := trim_text v, fieldValueConfidence := trim_text (pyStr c₂) } :: rs)) := by
  constructor
  · intro h
    have hnone : processField field = .ok none := by
      rcases h with h1 | ⟨h1, h2⟩ | ⟨h1, h2, h3⟩ | ⟨h1, h2, h3, h4⟩
      · simp [processField, h1]
      · simp [processField, h1, h2]
      · simp [processField, h1, h2, h3]
      · simp [processField, h1, h2, h3, h4]
    simp [processFields, hnone]
  · intro rs n v c₁ c₂ h1 h2 h3 h4 hrest
    have hr := processField_good field n v c₁ c₂ h1 h2 h3 h4
    simp [processFields, hr, hrest]

/-- Witness for C2 at concrete entries: an entry whose `textAnchor` dict
lacks "content" is skipped cleanly; the complete entry of the scenario
document yields exactly its one record. -/
theorem C2_amended_incomplete_entries_witness :
    processFields [.obj [("fieldName", .obj [("textAnchor", .obj [])])]] =
      processFields [] ∧
    processFields [.obj [
      ("fieldName", .obj [
        ("textAnchor", .obj [("content", .str "Total")]),
        ("confidence", .num "0.98")]),
      ("fieldValue", .obj [
        ("textAnchor", .obj [("content", .str "$42.00")]),
        ("confidence", .num "0.95")])]] =
      .ok [{ fieldName := trim_text "Total", fieldNameConfidence := trim_text (pyStr (.num "0.98")),
             fieldValue := trim_text "$42.00", fieldValueConfidence := trim_text (pyStr (.num "0.95")) }] :=
  ⟨(C2_amended_incomplete_entries (.obj [("fieldName", .obj [("textAnchor", .obj [])])]) []).1
      (Or.inl (by decide)),
   (C2_amended_incomplete_entries (.obj [
      ("fieldName", .obj [
        ("textAnchor", .obj [("content", .str "Total")]),
        ("confidence", .num "0.98")]),
      ("fieldValue", .obj [
        ("textAnchor", .obj [("content", .str "$42.00")]),
        ("confidence", .num "0.95")])]) []).2
      [] "Total" "$42.00" (.num "0.98") (.num "0.95") rfl rfl rfl rfl rfl⟩

/-- C3: accepted text is normalized exactly as `trim_text` does it: the
concrete input "  Total\nAmount \n" normalizes to "Total Amount"; for every
input the result equals the spec-side normalization (each embedded newline
replaced by a single space, leading and trailing whitespace trimmed); and no
newline character survives in any output. -/
theorem C3_trim_normalization :
    trim_text "  Total\nAmount \n" = "Total Amount" ∧
    (∀ s : String, trim_text s = specNormalize s) ∧
    (∀ s : String, '\n' ∉ (trim_text s).data) :=
  ⟨by decide, trim_text_eq_specNormalize, newline_not_mem_trim_text⟩

/-- C4 counterexample: with a missing contentType field (bucket and object
name present), the invocation makes no external calls and writes no output,
but it does not abort silently: concatenating the log message with `None`
raises an uncaught `TypeError`, so an error is surfaced. -/
theorem C4_counterexample_missing_content_type :
    process_invoice ⟨some "b", some "inv.pdf", none⟩
        ⟨"docai", "operations/1", true, []⟩ =
      { calls := [], output := none, exn := some .typeError } ∧
    (process_invoice ⟨some "b", some "inv.pdf", none⟩
        ⟨"docai", "operations/1", true, []⟩).exn ≠ none := by
  exact ⟨by decide, by decide⟩

/-- C4 amended: for a TriggerEvent with non-empty bucket and object name,
a contentType that is present but outside the accepted MIME-type set causes
a silent early return (no external calls, no output, no error), including
the empty string; a missing contentType also causes no external calls and
no output, but raises `TypeError` from the log-message concatenation rather
than aborting silently. -/
theorem C4_amended_content_type_gate (event : TriggerEvent) (env : Env)
    (b f : String) (hb : event.bucket = some b) (hb' : b ≠ "")
    (hf : event.name = some f) (hf' : f ≠ "") :
    (∀ mt, event.contentType = some mt → mt ∉ ACCEPTED_MIME_TYPES →
      process_invoice event env = { calls := [], output := none, exn := none }) ∧
    (event.contentType = none →
      process_invoice event env =
        { calls := [], output := none, exn := some .typeError }) := by
  constructor
  · intro mt hmt hacc
    simp [process_invoice, pyFalsyOpt, hb, hb', hf, hf', hmt, hacc]
  · intro hmt
    simp [process_invoice, pyFalsyOpt, hb, hb', hf, hf', hmt]

/-- Witness for C4 amended at concrete events: an unaccepted content type is
silently ignored; a missing one raises `TypeError`. -/
theorem C4_amended_content_type_gate_witness :
    process_invoice ⟨some "b", some "inv.pdf", some "text/plain"⟩
        ⟨"docai", "operations/1", true, []⟩ =
      { calls := [], output := none, exn := none } ∧
    process_invoice ⟨some "b", some "inv.pdf", none⟩
        ⟨"docai", "operations/2", true, []⟩ =
      { calls := [], output := none, exn := some .typeError } :=
  ⟨(C4_amended_content_type_gate ⟨some "b", some "inv.pdf", some "text/plain"⟩
      ⟨"docai", "operations/1", true, []⟩ "b" "inv.pdf" rfl (by decide) rfl (by decide)).1
      "text/plain" rfl (by decide),
   (C4_amended_content_type_gate ⟨some "b", some "inv.pdf", none⟩
      ⟨"docai", "operations/2", true, []⟩ "b" "inv.pdf" rfl (by decide) rfl (by decide)).2 rfl⟩

/-- C5: a TriggerEvent with a missing or empty bucket, or a missing or empty
object name, returns early: no external calls, no output object, no error. -/
theorem C5_empty_bucket_or_name_gate (event : TriggerEvent) (env : Env)
    (h : event.bucket = none ∨ event.bucket = some "" ∨
         event.name = none ∨ event.name = some "") :
    process_invoice event env = { calls := [], output := none, exn := none } := by
  rcases h with h | h | h | h <;> simp [process_invoice, pyFalsyOpt, h]

/-- Witness for C5 at a concrete event with an empty bucket. -/
theorem C5_empty_bucket_or_name_gate_witness :
    process_invoice ⟨some "", some "inv.pdf", some "application/pdf"⟩
        ⟨"docai", "operations/1", true, []⟩ =
      { calls := [], output := none, exn := none } :=
  C5_empty_bucket_or_name_gate _ _ (Or.inr (Or.inl rfl))

/-- C6: once the gates pass and the wait succeeds, the operation identifier
is the digit group captured by matching "operations/(\d+)"
(case-insensitively) against the operation resource name: when the pattern
has no match the invocation ends with an uncaught `AttributeError` (from
`.group(1)` on `None`) and no output is written; when it matches, the
captured group is a non-empty digit run occurring right after an
"operations/" substring, and the subsequent listing call uses it as the
output-directory suffix. -/
theorem C6_operation_id_extraction (event : TriggerEvent) (env : Env)
    (b f mt : String)
    (hb : event.bucket = some b) (hb' : b ≠ "")
    (hf : event.name = some f) (hf' : f ≠ "")
    (hmt : event.contentType = some mt) (hacc : mt ∈ ACCEPTED_MIME_TYPES)
    (hw : env.waitOk = true) :
    (opSearch env.operationName.data = none →
      process_invoice event env =
        { calls := [.batchProcess ("gs://" ++ b ++ "/" ++ f)
                      ("gs://" ++ b ++ "/" ++ env.outputUriPfx ++ "/"), .waitOp],
          output := none, exn := some .attributeError }) ∧
    (∀ d, opSearch env.operationName.data = some d →
      d ≠ [] ∧ (∀ c ∈ d, c.isDigit = true) ∧
      (∃ pre mid rest, env.operationName.data = pre ++ mid ++ d ++ rest ∧
        mid.map Char.toLower = "operations/".data ∧
        (∀ c, rest.head? = some c → c.isDigit = false)) ∧
      ExtCall.listBlobs b (env.outputUriPfx ++ "/" ++ String.mk d) ∈
        (process_invoice event env).calls) := by
  constructor
  · intro hnone
    simp [process_invoice, pyFalsyOpt, hb, hb', hf, hf', hmt, hacc, hw, hnone]
  · intro d hsome
    rcases opSearch_some_spec _ _ hsome with ⟨hne, hdig, hdecomp⟩
    refine ⟨hne, hdig, hdecomp, ?_⟩
    cases hg : get_document_json_from_gcs env.blobs with
    | exn e =>
      simp [process_invoice, pyFalsyOpt, hb, hb', hf, hf', hmt, hacc, hw, hsome, hg]
    | ok rs =>
      simp [process_invoice, pyFalsyOpt, hb, hb', hf, hf', hmt, hacc, hw, hsome, hg]

/-- Witness for C6 at concrete inputs: a resource name with no
"operations/(digits)" occurrence aborts with `AttributeError`; the name
"x/operations/111/y" yields the captured group "111" and a listing call for
the directory "docai/111". -/
theorem C6_operation_id_extraction_witness :
    process_invoice ⟨some "b", some "inv.pdf", some "application/pdf"⟩
        ⟨"docai", "no-match-here", true, []⟩ =
      { calls := [.batchProcess "gs://b/inv.pdf" "gs://b/docai/", .waitOp],
        output := none, exn := some .attributeError } ∧
    ExtCall.listBlobs "b" ("docai" ++ "/" ++ String.mk "111".data) ∈
      (process_invoice ⟨some "b", some "inv.pdf", some "application/pdf"⟩
        ⟨"docai", "x/operations/111/y", true, []⟩).calls :=
  ⟨(C6_operation_id_extraction ⟨some "b", some "inv.pdf", some "application/pdf"⟩
      ⟨"docai", "no-match-here", true, []⟩ "b" "inv.pdf" "application/pdf"
      rfl (by decide) rfl (by decide) rfl (by decide) rfl).1 (by decide),
   ((C6_operation_id_extraction ⟨some "b", some "inv.pdf", some "application/pdf"⟩
      ⟨"docai", "x/operations/111/y", true, []⟩ "b" "inv.pdf" "application/pdf"
      rfl (by decide) rfl (by decide) rfl (by decide) rfl).2 "111".data
      (by decide)).2.2.2⟩

/-- C7 counterexample: when the first occurrence of a key stored the empty
string, the second occurrence does not promote the stored value to a list:
it overwrites it with a fresh scalar (the stored empty string is falsy), so
the result is the scalar "B", not the list ["", "B"]. -/
theorem C7_counterexample_empty_scalar :
    extract_document_entities [.mk "a" "" none [], .mk "a" "B" none []] =
      [("a", .scalar "B")] ∧
    extract_document_entities [.mk "a" "" none [], .mk "a" "B" none []] ≠
      [("a", .list ["", "B"])] := by
  exact ⟨by decide, by decide⟩

/-- C7 amended: the first occurrence of an entity-type key stores a scalar
string; a subsequent occurrence promotes the stored value to a list and
appends provided the stored value is truthy (a non-empty string or a
non-empty list); a falsy stored value (such as the empty string) is instead
overwritten with a fresh scalar.  In particular two "line_item" entities
with texts "A" and "B" yield the key "line_item" mapped to ["A", "B"]. -/
theorem C7_amended_scalar_list_promotion :
    extract_document_entities
        [.mk "line_item" "A" none [], .mk "line_item" "B" none []] =
      [("line_item", .list ["A", "B"])] ∧
    (∀ (d : EntityDict) (e : Entity),
      (dictGet d (entityKey e) = none →
        dictGet (extract_document_entity d e) (entityKey e) =
          some (.scalar (entityNewValue e))) ∧
      (∀ s, dictGet d (entityKey e) = some (.scalar s) → s ≠ "" →
        dictGet (extract_document_entity d e) (entityKey e) =
          some (.list [s, entityNewValue e])) ∧
      (∀ l, dictGet d (entityKey e) = some (.list l) → l ≠ [] →
        dictGet (extract_document_entity d e) (entityKey e) =
          some (.list (l ++ [entityNewValue e]))) ∧
      (∀ v, dictGet d (entityKey e) = some v → v.truthy = false →
        dictGet (extract_document_entity d e) (entityKey e) =
          some (.scalar (entityNewValue e)))) := by
  refine ⟨by decide, fun d e => ⟨?_, ?_, ?_, ?_⟩⟩
  · intro h
    simp [extract_document_entity, h, dictGet_dictSet_self]
  · intro s h hs
    simp [extract_document_entity, h, EntityValue.truthy, hs, dictGet_dictSet_self]
  · intro l h hl
    simp [extract_document_entity, h, EntityValue.truthy, List.isEmpty_iff, hl,
          dictGet_dictSet_self]
  · intro v h hv
    simp [extract_document_entity, h, hv, dictGet_dictSet_self]

/-- Witness for C7 amended at concrete dictionaries: fresh key stores a
scalar; truthy scalar is promoted to a two-element list; truthy list is
appended to; falsy stored empty string is overwritten by a scalar. -/
theorem C7_amended_scalar_list_promotion_witness :
    dictGet (extract_document_entity [] (.mk "t" "A" none []))
        (entityKey (.mk "t" "A" none [])) = some (.scalar "A") ∧
    dictGet (extract_document_entity [("t", .scalar "A")] (.mk "t" "B" none []))
        (entityKey (.mk "t" "B" none [])) = some (.list ["A", "B"]) ∧
    dictGet (extract_document_entity [("t", .list ["A", "B"])] (.mk "t" "C" none []))
        (entityKey (.mk "t" "C" none [])) = some (.list ["A", "B", "C"]) ∧
    dictGet (extract_document_entity [("t", .scalar "")] (.mk "t" "D" none []))
        (entityKey (.mk "t" "D" none [])) = some (.scalar "D") :=
  ⟨(C7_amended_scalar_list_promotion.2 [] (.mk "t" "A" none [])).1 (by decide),
   (C7_amended_scalar_list_promotion.2 [("t", .scalar "A")] (.mk "t" "B" none [])).2.1
      "A" (by decide) (by decide),
   (C7_amended_scalar_list_promotion.2 [("t", .list ["A", "B"])] (.mk "t" "C" none [])).2.2.1
      ["A", "B"] (by decide) (by decide),
   (C7_amended_scalar_list_promotion.2 [("t", .scalar "")] (.mk "t" "D" none [])).2.2.2
      (.scalar "") (by decide) (by decide)⟩

/-- C8 counterexample: two invocations for the same input object whose
server-assigned operation identifiers differ ("111" vs "222") both write the
final output to the identical derived path "extractedjson/doc.pdf.json", so
reruns overwrite rather than producing additional output objects. -/
theorem C8_counterexample_same_output_path :
    (process_invoice ⟨some "b", some "doc.pdf", some "application/pdf"⟩
        ⟨"docai", "x/operations/111/y", true, []⟩).output =
      some ("extractedjson/doc.pdf.json", []) ∧
    (process_invoice ⟨some "b", some "doc.pdf", some "application/pdf"⟩
        ⟨"docai", "x/operations/222/y", true, []⟩).output =
      some ("extractedjson/doc.pdf.json", []) ∧
    opSearch ("x/operations/111/y" : String).data = some "111".data ∧
    opSearch ("x/operations/222/y" : String).data = some "222".data ∧
    ("111" : String) ≠ "222" := by
  exact ⟨by decide, by decide, by decide, by decide, by decide⟩

/-- C8 amended: the Publisher's destination object name depends only on the
input object name — whenever an invocation writes an output object, its path
is "extractedjson/" ++ (input object name) ++ ".json", regardless of the
operation identifier (only the intermediate Document AI output directory is
keyed by the operation identifier); hence re-processing the same input
overwrites the same final output object. -/
theorem C8_amended_output_path_from_input (event : TriggerEvent) (env : Env)
    (p : String) (rs : List FieldRecord)
    (h : (process_invoice event env).output = some (p, rs)) :
    ∃ f, event.name = some f ∧ p = "extractedjson/" ++ f ++ ".json" := by
  cases hn : event.name with
  | none =>
    simp [process_invoice, pyFalsyOpt, hn] at h
  | some f =>
    refine ⟨f, rfl, ?_⟩
    cases hnb : event.bucket with
    | none => simp [process_invoice, pyFalsyOpt, hn, hnb] at h
    | some b =>
      by_cases hbe : b = ""
      · simp [process_invoice, pyFalsyOpt, hn, hnb, hbe] at h
      · by_cases hfe : f = ""
        · simp [process_invoice, pyFalsyOpt, hn, hnb, hbe, hfe] at h
        · cases hmt : event.contentType with
          | none => simp [process_invoice, pyFalsyOpt, hn, hnb, hbe, hfe, hmt] at h
          | some mt =>
            by_cases hacc : mt ∈ ACCEPTED_MIME_TYPES
            · by_cases hw : env.waitOk = true
              · cases ho : opSearch env.operationName.data with
                | none =>
                  simp [process_invoice, pyFalsyOpt, hn, hnb, hbe, hfe, hmt,
                        hacc, hw, ho] at h
                | some d =>
                  cases hg : get_document_json_from_gcs env.blobs with
                  | exn e =>
                    simp [process_invoice, pyFalsyOpt, hn, hnb, hbe, hfe, hmt,
                          hacc, hw, ho, hg] at h
                  | ok entities =>
                    simp [process_invoice, pyFalsyOpt, hn, hnb, hbe, hfe,
                          hmt, hacc, hw, ho, hg] at h
                    exact h.1.symm
              · simp [process_invoice, pyFalsyOpt, hn, hnb, hbe, hfe, hmt,
                      hacc, hw] at h
            · simp [process_invoice, pyFalsyOpt, hn, hnb, hbe, hfe, hmt, hacc] at h

/-- Witness for C8 amended at a concrete run that writes output. -/
theorem C8_amended_output_path_from_input_witness :
    ∃ f, (⟨some "b", some "doc.pdf", some "application/pdf"⟩ : TriggerEvent).name =
        some f ∧
      "extractedjson/doc.pdf.json" = "extractedjson/" ++ f ++ ".json" :=
  C8_amended_output_path_from_input
    ⟨some "b", some "doc.pdf", some "application/pdf"⟩
    ⟨"docai", "x/operations/111/y", true, []⟩
    "extractedjson/doc.pdf.json" [] (by decide)

/-- C9: when some listed object whose name contains ".json" parses to a
value with no top-level "pages" key (a dict lacking the key, or a non-dict),
`get_document_json_from_gcs` raises an uncaught exception, and any
invocation reaching the fetch with that listing ends with an exception and
writes no output object — such an object is not individually skipped. -/
theorem C9_missing_pages_aborts (blobs : List Blob)
    (h : ∃ blob ∈ blobs, containsSub ".json" blob.name = true ∧
         jLookup blob.content "pages" = none) :
    (∃ e, get_document_json_from_gcs blobs = .exn e) ∧
    (∀ (event : TriggerEvent) (env : Env) (b f mt : String),
      env.blobs = blobs →
      event.bucket = some b → b ≠ "" →
      event.name = some f → f ≠ "" →
      event.contentType = some mt → mt ∈ ACCEPTED_MIME_TYPES →
      (process_invoice event env).output = none ∧
      (process_invoice event env).exn ≠ none) := by
  refine ⟨gdoc_exn_of_bad_blob blobs h, ?_⟩
  intro event env b f mt henv hb hb' hf hf' hmt hacc
  rcases gdoc_exn_of_bad_blob blobs h with ⟨e, he⟩
  rw [← henv] at he
  by_cases hw : env.waitOk = true
  · cases ho : opSearch env.operationName.data with
    | none =>
      constructor <;>
        simp [process_invoice, pyFalsyOpt, hb, hb', hf, hf', hmt, hacc, hw, ho]
    | some d =>
      constructor <;>
        simp [process_invoice, pyFalsyOpt, hb, hb', hf, hf', hmt, hacc, hw, ho, he]
  · constructor <;>
      simp [process_invoice, pyFalsyOpt, hb, hb', hf, hf', hmt, hacc, hw]

/-- Witness for C9 at a concrete listing holding one ".json" object whose
parsed content is an array (no top-level "pages" key). -/
theorem C9_missing_pages_aborts_witness :
    (∃ e, get_document_json_from_gcs [⟨"bad.json", .arr []⟩] = .exn e) ∧
    (process_invoice ⟨some "b", some "inv.pdf", some "application/pdf"⟩
        ⟨"docai", "x/operations/9/y", true, [⟨"bad.json", .arr []⟩]⟩).output = none ∧
    (process_invoice ⟨some "b", some "inv.pdf", some "application/pdf"⟩
        ⟨"docai", "x/operations/9/y", true, [⟨"bad.json", .arr []⟩]⟩).exn ≠ none :=
  ⟨(C9_missing_pages_aborts [⟨"bad.json", .arr []⟩]
      ⟨⟨"bad.json", .arr []⟩, by simp, by decide, rfl⟩).1,
   (C9_missing_pages_aborts [⟨"bad.json", .arr []⟩]
      ⟨⟨"bad.json", .arr []⟩, by simp, by decide, rfl⟩).2
      ⟨some "b", some "inv.pdf", some "application/pdf"⟩
      ⟨"docai", "x/operations/9/y", true, [⟨"bad.json", .arr []⟩]⟩
      "b" "inv.pdf" "application/pdf" rfl rfl (by decide) rfl (by decide) rfl
      (by decide)⟩

/-- C10: `keys_exists` raises `AttributeError` whenever its first argument
is not a dict or it is given zero keys; a `False` return happens only when
the walk reaches a dict from which the next key is absent (the `KeyError`
case); a non-dict intermediate value on the path (for example a string under
the first key) raises an uncaught `TypeError` instead of returning `False`. -/
theorem C10_keys_exists_contract :
    (∀ (j : Json) (ks : List String), ¬ j.isObj →
      keys_exists j ks = .exn .attributeError) ∧
    (∀ j : Json, keys_exists j [] = .exn .attributeError) ∧
    (∀ (j : Json) (ks : List String), keys_exists j ks = .ok false →
      ∃ pre k post v, ks = pre ++ k :: post ∧ jWalk j pre = some v ∧
        ∃ l, v = .obj l ∧ assocGet l k = none) ∧
    keys_exists (.obj [("a", .str "x")]) ["a", "b"] = .exn .typeError := by
  refine ⟨?_, ?_, ?_, by decide⟩
  · intro j ks hj
    simp [keys_exists, hj]
  · intro j
    by_cases hj : j.isObj
    · simp [keys_exists, hj]
    · simp [keys_exists, hj]
  · intro j ks h
    by_cases hj : j.isObj
    · by_cases hks : ks.isEmpty
      · rw [keys_exists, if_neg (not_not_intro hj), if_pos hks] at h
        exact absurd h (by simp)
      · have hw : keys_walk j ks = .ok false := by
          rw [keys_exists, if_neg (not_not_intro hj), if_neg hks] at h
          exact h
        exact keys_walk_false ks j hw
    · rw [keys_exists, if_pos hj] at h
      exact absurd h (by simp)

/-- Witness for C10: the `AttributeError` cases at a string first argument
and at an empty key list, and the `False`-only-from-`KeyError`
characterization at a dict lacking the probed key. -/
theorem C10_keys_exists_contract_witness :
    keys_exists (.str "s") ["a"] = .exn .attributeError ∧
    keys_exists (.obj [("a", .str "x")]) [] = .exn .attributeError ∧
    (∃ pre k post v, (["a"] : List String) = pre ++ k :: post ∧
      jWalk (.obj []) pre = some v ∧ ∃ l, v = .obj l ∧ assocGet l k = none) :=
  ⟨C10_keys_exists_contract.1 (.str "s") ["a"] (by decide),
   C10_keys_exists_contract.2.1 (.obj [("a", .str "x")]),
   C10_keys_exists_contract.2.2.1 (.obj []) ["a"] (by decide)⟩

end I9Doc
